import Mathlib

/-!
Shallow embedding of `app/main.py` of the Bulldoggy reminders app
(FastAPI entry-point module): exception handlers, OpenAPI customization,
and the three top-level routes, together with theorems checking the
specification's claims about them.
-/

namespace App

/-- An HTTP request, reduced to the one attribute the module inspects:
`request.url.path`. -/
structure Request where
  path : String
deriving DecidableEq, Repr

/-- A Starlette `HTTPException`: a status code and a detail message. -/
structure HTTPException where
  status_code : Nat
  detail : String
deriving DecidableEq, Repr

/-- Modelled from the spec: `UnauthorizedPageException` (defined in
`app/utils/exceptions.py`, which is not part of the provided source) is the
"unauthorized page" signal a handler may raise; per the spec it carries no
payload that the handler uses, but we give it a detail message so that
independence from the exception value is a real statement. -/
structure UnauthorizedPageException where
  detail : String
deriving DecidableEq, Repr

/-- Modelled from the spec: `AuthCookie` (defined in `app/utils/auth.py`,
which is not part of the provided source) is "a client-held token used to
determine logged-in status for a request"; the module only tests its
presence. -/
structure AuthCookie where
  token : String
deriving DecidableEq, Repr

/-- The responses this module can construct, distinguished by constructor:
redirects, JSON error bodies (always of the shape with a single `detail`
field here), file responses and template responses. -/
inductive Response where
  | redirect (url : String) (status_code : Nat)
  | jsonDetail (detail : String) (status_code : Nat)
  | file (path : String) (status_code : Nat)
  | template (name : String) (context_request : Request) (status_code : Nat)
deriving DecidableEq, Repr

/-- Starlette `RedirectResponse(url, status_code)`. Call sites that omit
the status code in the Python source receive Starlette's default of 307,
which we write explicitly at those call sites. -/
def RedirectResponse (url : String) (status_code : Nat) : Response :=
  Response.redirect url status_code

/-- FastAPI `JSONResponse(content, status_code)` for the one body shape the
module builds: a single-key object carrying a `detail` string. -/
def JSONResponse (detail : String) (status_code : Nat) : Response :=
  Response.jsonDetail detail status_code

/-- Starlette `FileResponse(path)`: serves the file's content with the
default status code 200. -/
def FileResponse (path : String) : Response :=
  Response.file path 200

/-- `templates.TemplateResponse(name, context)`: renders the named template
with a context holding the current request, default status code 200. -/
def TemplateResponse (name : String) (context_request : Request) : Response :=
  Response.template name context_request 200

/-- Character-list helper for Python's `str.startswith`. -/
def list_startswith : List Char → List Char → Bool
  | [], _ => true
  | _ :: _, [] => false
  | p :: ps, c :: cs => p == c && list_startswith ps cs

/-- Python `s.startswith(pre)`, modelled on the strings' characters. -/
def startswith (s pre : String) : Bool :=
  list_startswith pre.data s.data

/-- `unauthorized_exception_handler` from `app/main.py`: any
`UnauthorizedPageException` becomes a 302 redirect to
`/login?unauthorized=True`. -/
def unauthorized_exception_handler (request : Request)
    (exc : UnauthorizedPageException) : Response :=
  RedirectResponse "/login?unauthorized=True" 302

/-- `page_not_found_exception_handler` from `app/main.py`, registered for
status 404: under `/api/` it answers with a JSON detail body at the
exception's status code; elsewhere with `RedirectResponse('/not-found')`,
which carries Starlette's default status code 307. -/
def page_not_found_exception_handler (request : Request)
    (exc : HTTPException) : Response :=
  if startswith request.path "/api/" then
    JSONResponse exc.detail exc.status_code
  else
    RedirectResponse "/not-found" 307

/-- A route registration, reduced to what the OpenAPI generation inspects:
its path and its `include_in_schema` flag. -/
structure Route where
  path : String
  include_in_schema : Bool
deriving DecidableEq, Repr

/-- An OpenAPI tag: a name and a description. -/
structure Tag where
  name : String
  description : String
deriving DecidableEq, Repr

/-- The OpenAPI schema document, reduced to the parts the module sets or
the spec talks about: the `info` block fields (title, version,
description, and the `x-logo` vendor extension), the paths listed, and
the tags. -/
structure OpenAPISchema where
  info_title : String
  info_version : String
  info_description : String
  paths : List String
  tags : List Tag
  info_x_logo_url : Option String
deriving DecidableEq, Repr

/-- FastAPI `get_openapi(title, version, description, routes, tags)`:
builds the schema's info block from the given metadata, lists the path of
every route whose `include_in_schema` flag is set, and copies the tags.
It sets no vendor extension. -/
def get_openapi (title version description : String)
    (routes : List Route) (tags : List Tag) : OpenAPISchema :=
  { info_title := title
    info_version := version
    info_description := description
    paths := (routes.filter (fun r => r.include_in_schema)).map (fun r => r.path)
    tags := tags
    info_x_logo_url := none }

/-- The description string of `custom_openapi` in `app/main.py` (a Python
triple-quoted literal, indentation included). -/
def description : String :=
  "Bulldoggy is a web app for tracking reminders.\n    It is a full-stack Python app built using FastAPI and HTMX.\n    It is meant to be an \"example\" or \"demo\" app used for instructional purposes.\n    "

/-- The tag list passed to `get_openapi` in `app/main.py`. -/
def openapi_tags : List Tag :=
  [ ⟨"API", "Backend API routes for managing reminder lists and items."⟩,
    ⟨"Pages", "The main Bulldoggy web pages."⟩,
    ⟨"Authentication", "Routes for logging into and out of the app."⟩,
    ⟨"HTMX Partials", "Routes that serve partial web page contents for HTMX-based requests."⟩ ]

/-- `app.routes`: the routes of the three included routers (external
collaborators, so kept abstract as a parameter) followed by the three
routes `app/main.py` registers itself — `GET /`, `GET /favicon.ico` (with
`include_in_schema=False`) and `GET /not-found`. -/
def app_routes (routerRoutes : List Route) : List Route :=
  routerRoutes ++ [⟨"/", true⟩, ⟨"/favicon.ico", false⟩, ⟨"/not-found", true⟩]

/-- `custom_openapi` from `app/main.py`, with the process-wide mutable
field `app.openapi_schema` made explicit: the function takes the current
cache contents and returns the response together with the new cache
contents. If the cache is populated it is returned unchanged; otherwise
the schema is built by `get_openapi`, the `x-logo` vendor extension is
injected into its info block, and the result is stored and returned. -/
def custom_openapi (routerRoutes : List Route)
    (openapi_schema : Option OpenAPISchema) :
    OpenAPISchema × Option OpenAPISchema :=
  match openapi_schema with
  | some s => (s, some s)
  | none =>
    let schema :=
      get_openapi "Bulldoggy: The Reminders App" "1.0.0" description
        (app_routes routerRoutes) openapi_tags
    let schema := { schema with
      info_x_logo_url := some "static/img/logos/bulldoggy-500px.png" }
    (schema, some schema)

/-- `read_root` from `app/main.py` (`GET /`): the resolved auth cookie is
`Optional[AuthCookie]`; a present cookie object is truthy, `None` is
falsy, so the redirect target is `/reminders` exactly when the cookie is
present. -/
def read_root (cookie : Option AuthCookie) : Response :=
  let path := if cookie.isSome then "/reminders" else "/login"
  RedirectResponse path 302

/-- `get_favicon` from `app/main.py` (`GET /favicon.ico`). -/
def get_favicon : Response :=
  FileResponse "static/img/favicon.ico"

/-- `get_not_found` from `app/main.py` (`GET /not-found`). -/
def get_not_found (request : Request) : Response :=
  TemplateResponse "pages/not-found.html" request

end App

namespace App

/-- Claim C1, counterexample: for the non-API path `/reminders` producing
a 404, the handler's response is a redirect to `/not-found` with status
307 (Starlette's `RedirectResponse` default, the status code being
omitted at this call site), not 302 as the claim states. -/
theorem C1_counterexample :
    page_not_found_exception_handler ⟨"/reminders"⟩ ⟨404, "Not Found"⟩ =
      RedirectResponse "/not-found" 307 ∧
    page_not_found_exception_handler ⟨"/reminders"⟩ ⟨404, "Not Found"⟩ ≠
      RedirectResponse "/not-found" 302 := by
  exact ⟨rfl, by decide⟩

/-- Claim C1, amended: for every request not under the `/api/` prefix
whose handling produces a 404, the 404 exception handler returns a
redirect response with status 307 whose target is `/not-found`. -/
theorem C1_theorem (request : Request) (exc : HTTPException)
    (h : startswith request.path "/api/" = false) :
    page_not_found_exception_handler request exc =
      RedirectResponse "/not-found" 307 := by
  unfold page_not_found_exception_handler
  rw [h]
  rfl

/-- Witness for C1 at the concrete non-API path `/reminders`. -/
theorem C1_witness :
    page_not_found_exception_handler ⟨"/reminders"⟩ ⟨404, "Not Found"⟩ =
      RedirectResponse "/not-found" 307 :=
  C1_theorem ⟨"/reminders"⟩ ⟨404, "Not Found"⟩ (by decide)

/-- Claim C2: `GET /` redirects with status 302 to `/reminders` when the
auth-cookie resolver yields a present cookie, and to `/login` when it
yields none. -/
theorem C2_theorem :
    (∀ c : AuthCookie, read_root (some c) = RedirectResponse "/reminders" 302) ∧
    read_root none = RedirectResponse "/login" 302 :=
  ⟨fun _ => rfl, rfl⟩

/-- Claim C3: the unauthorized exception handler returns a 302 redirect to
exactly `/login?unauthorized=True`, for every request and every exception
value. -/
theorem C3_theorem (request : Request) (exc : UnauthorizedPageException) :
    unauthorized_exception_handler request exc =
      RedirectResponse "/login?unauthorized=True" 302 :=
  rfl

/-- Claim C4: for every request whose path starts with `/api/` whose
handling produces a 404, the handler returns a JSON response whose body
is the single-key detail object carrying the exception's original detail
message, with the exception's original 404 status code. -/
theorem C4_theorem (request : Request) (exc : HTTPException)
    (h : startswith request.path "/api/" = true)
    (h404 : exc.status_code = 404) :
    page_not_found_exception_handler request exc =
      JSONResponse exc.detail 404 := by
  unfold page_not_found_exception_handler
  rw [h, if_pos rfl, h404]

/-- Witness for C4 at the concrete API path `/api/reminders`. -/
theorem C4_witness :
    page_not_found_exception_handler ⟨"/api/reminders"⟩ ⟨404, "Not Found"⟩ =
      JSONResponse "Not Found" 404 :=
  C4_theorem ⟨"/api/reminders"⟩ ⟨404, "Not Found"⟩ (by decide) rfl

/-- Claim C5: `custom_openapi` is a compute-once cache. The first call
(empty cache) stores exactly the schema it returns, and every call with a
populated cache returns the stored schema and leaves the cache unchanged,
unconditionally — hence every subsequent call returns the value the first
call produced, whatever happens in between, since no other operation of
the module writes the cache. -/
theorem C5_theorem (routerRoutes : List Route) :
    (custom_openapi routerRoutes none).2 =
      some (custom_openapi routerRoutes none).1 ∧
    ∀ s : OpenAPISchema, custom_openapi routerRoutes (some s) = (s, some s) :=
  ⟨rfl, fun _ => rfl⟩

/-- Claim C6: the generated schema has title "Bulldoggy: The Reminders
App", version "1.0.0", the module's fixed description, exactly the four
tags named API, Pages, Authentication and HTMX Partials, and the `x-logo`
vendor-extension URL in its info block pointing at the static image path
`static/img/logos/bulldoggy-500px.png`. -/
theorem C6_theorem (routerRoutes : List Route) :
    (custom_openapi routerRoutes none).1.info_title =
      "Bulldoggy: The Reminders App" ∧
    (custom_openapi routerRoutes none).1.info_version = "1.0.0" ∧
    (custom_openapi routerRoutes none).1.info_description = description ∧
    (custom_openapi routerRoutes none).1.tags.map (fun t => t.name) =
      ["API", "Pages", "Authentication", "HTMX Partials"] ∧
    (custom_openapi routerRoutes none).1.info_x_logo_url =
      some "static/img/logos/bulldoggy-500px.png" ∧
    startswith "static/img/logos/bulldoggy-500px.png" "static/" = true :=
  ⟨rfl, rfl, rfl, rfl, rfl, by decide⟩

/-- Claim C7: `GET /favicon.ico` returns the content of the fixed file
`static/img/favicon.ico` with status 200, and — provided no router route
reuses that path — `/favicon.ico` does not appear in the generated
schema's path list, its route being registered with
`include_in_schema=False`. -/
theorem C7_theorem (routerRoutes : List Route)
    (h : ∀ r ∈ routerRoutes, r.path ≠ "/favicon.ico") :
    get_favicon = Response.file "static/img/favicon.ico" 200 ∧
    "/favicon.ico" ∉ (custom_openapi routerRoutes none).1.paths := by
  refine ⟨rfl, ?_⟩
  intro hmem
  have hpaths : (custom_openapi routerRoutes none).1.paths =
      (routerRoutes.filter (fun r => r.include_in_schema)).map (fun r => r.path) ++
      (([⟨"/", true⟩, ⟨"/favicon.ico", false⟩, ⟨"/not-found", true⟩] :
          List Route).filter (fun r => r.include_in_schema)).map (fun r => r.path) := by
    simp only [custom_openapi, get_openapi, app_routes, List.filter_append,
      List.map_append]
  rw [hpaths] at hmem
  rcases List.mem_append.mp hmem with h1 | h2
  · rcases List.mem_map.mp h1 with ⟨r, hr, hpath⟩
    exact h r (List.mem_of_mem_filter hr) hpath
  · revert h2
    decide

/-- Witness for C7 with no router routes. -/
theorem C7_witness :
    get_favicon = Response.file "static/img/favicon.ico" 200 ∧
    "/favicon.ico" ∉ (custom_openapi [] none).1.paths :=
  C7_theorem [] (by intro r hr; cases hr)

/-- Claim C8: `GET /not-found` responds with status 200 and the rendering
of the fixed template `pages/not-found.html` with a context containing
the current request. -/
theorem C8_theorem (request : Request) :
    get_not_found request =
      Response.template "pages/not-found.html" request 200 :=
  rfl

/-- Claim C9: the API branch of the 404 handler requires the
five-character prefix `/api/` slash included; the paths `/api` and
`/apifoo`, and generally any 404-producing path not extending `/api/`,
get the redirect to `/not-found` and never a JSON detail body. -/
theorem C9_theorem (exc : HTTPException) :
    page_not_found_exception_handler ⟨"/api"⟩ exc =
      RedirectResponse "/not-found" 307 ∧
    page_not_found_exception_handler ⟨"/apifoo"⟩ exc =
      RedirectResponse "/not-found" 307 ∧
    ∀ d s, page_not_found_exception_handler ⟨"/api"⟩ exc ≠
      Response.jsonDetail d s := by
  refine ⟨rfl, rfl, fun d s hne => ?_⟩
  have h2 : Response.redirect "/not-found" 307 = Response.jsonDetail d s := hne
  exact Response.noConfusion h2

/-- Claim C10: the root route's response depends only on the presence of
the resolved auth cookie, not on its contents — any two present cookies
yield identical responses, and any two absent resolutions yield identical
responses. -/
theorem C10_theorem :
    (∀ c₁ c₂ : AuthCookie, read_root (some c₁) = read_root (some c₂)) ∧
    read_root none = read_root none :=
  ⟨fun _ _ => rfl, rfl⟩

end App
